import Mathlib

/-!
Verification of the face-recognition attendance system (`facescan.py`)
against its design specification.

The embedding models the three core components the spec describes:
the Ledger (`load_attendance_data`, `save_attendance_data`, `log_check`),
the Verifier (`recognize_face`), and the Session Controller
(the capture / verify / recapture actions of `webcam_verification`),
plus registration (`add_face`).

File-system effects are made explicit: the ledger file is a small inductive
describing its possible contents, the reference store is the directory
listing of `faces_db`, and the DeepFace oracle is an explicit function
from a reference file name to a verdict-or-failure.
-/

/-- One attendance record, the dict `{"Name": ..., "Type": ..., "Time": ...}`
built at facescan.py line 46.  `ctype` models the JSON key `"Type"`. -/
structure Record where
  name : String
  ctype : String
  time : String
deriving DecidableEq

/-- The possible states of the persisted ledger file `attendance.json`:
absent; present with content that `json.load` rejects (raises
`JSONDecodeError`); present with content that `json.load` accepts but that
is not tabular, e.g. the bare number `5`, on which `pd.DataFrame` raises an
uncaught `ValueError`; or present as a well-formed JSON array of records. -/
inductive LedgerFile
  | absent
  | invalidJson
  | validJsonNonTabular
  | records (rs : List Record)
deriving DecidableEq

/-- `load_attendance_data` (facescan.py lines 15-25).  Returns the parsed
record sequence, or `.error` when the Python function raises to its caller.
The `try` block checks `os.path.exists`, then `json.load`s the file and
passes the result to `pd.DataFrame`; the `except` clause catches only
`json.JSONDecodeError` and `FileNotFoundError`, so the `ValueError` that
`pd.DataFrame` raises on a non-tabular JSON value (a bare scalar) escapes. -/
def load_attendance_data : LedgerFile → Except String (List Record)
  | .absent => .ok []
  | .invalidJson => .ok []
  | .validJsonNonTabular => .error "ValueError: DataFrame constructor not properly called!"
  | .records rs => .ok rs

/-- `save_attendance_data` (facescan.py lines 27-36).  Serialises the full
record list and rewrites the file; returns `True` on success.  `writeOk`
models whether the `json.dump` / file write succeeds; on failure the
function shows an error and returns `False`, and the residual on-disk state
is unknown (an interrupted write), modelled by the caller-chosen `junk`. -/
def save_attendance_data (rs : List Record) (writeOk : Bool) (junk : LedgerFile) :
    Bool × LedgerFile :=
  if writeOk then (true, .records rs) else (false, junk)

/-- `log_check` (facescan.py lines 38-56).  Loads the current data, appends
one new record, saves, and reports success; the success / error branches at
lines 51 and 55 are modelled by the third component (`true` iff an error
message was shown).  If the internal `load_attendance_data` raises, the
exception propagates to `log_check`'s caller (`.error`). -/
def log_check (name ctype now : String) (fs : LedgerFile) (writeOk : Bool)
    (junk : LedgerFile) : Except String (Bool × LedgerFile × Bool) :=
  match load_attendance_data fs with
  | .error e => .error e
  | .ok df =>
      let df2 := df ++ [⟨name, ctype, now⟩]
      let r := save_attendance_data df2 writeOk junk
      .ok (r.1, r.2, !r.1)

/-- C1: on a well-formed ledger file holding the sequence `l`, `load` returns
`l`; `log_check` (a successful append of record `r`) rewrites the file to
exactly `l ++ [r]`; and a second `load` returns `l ++ [r]` — the original
sequence with `r` appended, with no record modified, removed or reordered. -/
theorem ledger_load_append_load (l : List Record) (r : Record) (junk : LedgerFile) :
    load_attendance_data (.records l) = .ok l ∧
    log_check r.name r.ctype r.time (.records l) true junk =
      .ok (true, .records (l ++ [r]), false) ∧
    load_attendance_data (.records (l ++ [r])) = .ok (l ++ [r]) := by
  refine ⟨rfl, ?_, rfl⟩
  simp [log_check, load_attendance_data, save_attendance_data]

/-- C2 counterexample: a present ledger file whose content is malformed —
valid JSON but not tabular, e.g. the bare number `5` — makes `load` raise an
uncaught `ValueError` from `pd.DataFrame` instead of returning the empty
sequence, because the `except` clause catches only `json.JSONDecodeError`
and `FileNotFoundError`. -/
theorem load_raises_on_nontabular_json :
    load_attendance_data .validJsonNonTabular ≠ .ok [] ∧
    (∃ e, load_attendance_data .validJsonNonTabular = .error e) := by
  exact ⟨by simp [load_attendance_data], _, rfl⟩

/-- C2 amended: `load` returns the empty sequence, without raising, when the
ledger file is absent or when its content fails JSON parsing; content that
parses as JSON but is not tabular raises to the caller. -/
theorem load_empty_on_absent_or_undecodable :
    load_attendance_data .absent = .ok [] ∧
    load_attendance_data .invalidJson = .ok [] := ⟨rfl, rfl⟩

/-- Python `s.endswith(suffix)` (used at facescan.py line 71 as
`f.endswith('.jpg')`), on the underlying character sequences. -/
def py_endswith (s suffix : String) : Bool :=
  List.isSuffixOf suffix.data s.data

/-- Index of the last `'.'` in a character list, if any (the `rfind`
step of `os.path.splitext`). -/
def lastDotIdx : List Char → Option Nat
  | [] => none
  | c :: rest =>
      match lastDotIdx rest with
      | some i => some (i + 1)
      | none => if c = '.' then some 0 else none

/-- `os.path.splitext(f)[0]` (facescan.py line 87) for a bare file name
(no directory separator): the name is cut at its last `'.'`, except that
leading dots never start an extension (CPython `genericpath._splitext`:
the split happens only if some character before the last dot is not a dot). -/
def splitextStem (f : String) : String :=
  match lastDotIdx f.data with
  | none => f
  | some d => if (f.data.take d).all (fun c => c = '.') then f else ⟨f.data.take d⟩

/-- The DeepFace oracle's verdict for one comparison (facescan.py lines
79-84): a boolean `result["verified"]`, or a raised exception. -/
inductive OracleResult
  | ok (verified : Bool)
  | err (msg : String)
deriving DecidableEq

/-- `true` iff the oracle call raised. -/
def isErr : OracleResult → Bool
  | .err _ => true
  | .ok _ => false

/-- Outcome of scanning the filtered reference files (the `for` loop of
facescan.py lines 75-92): the recognised stem if any, the reference files
actually passed to `DeepFace.verify` in order, and the files for which the
call raised and a warning was shown (line 91). -/
structure ScanResult where
  recognized : Option String
  calls : List String
  warnings : List String
deriving DecidableEq

/-- The `for file in files` loop of `recognize_face` (facescan.py lines
75-92): call the oracle on each file in order; on `verified == true` record
the file's stem and `break`; on a raised exception show a warning and
`continue`; on `verified == false` just continue. -/
def scan_files (oracle : String → OracleResult) : List String → ScanResult
  | [] => ⟨none, [], []⟩
  | f :: rest =>
      match oracle f with
      | .ok true => ⟨some (splitextStem f), [f], []⟩
      | .ok false =>
          let r := scan_files oracle rest
          ⟨r.recognized, f :: r.calls, r.warnings⟩
      | .err _ =>
          let r := scan_files oracle rest
          ⟨r.recognized, f :: r.calls, f :: r.warnings⟩

/-- Observable outcome of `recognize_face`: its return value, the oracle
calls and warnings, and whether the transient file `temp_live.jpg` exists
when the function returns. -/
structure RecognizeResult where
  recognized : Option String
  calls : List String
  warnings : List String
  tempExists : Bool
deriving DecidableEq

/-- `recognize_face` (facescan.py lines 63-101).  `dbExists` is
`os.path.exists(DB_PATH)`, `listing` is `os.listdir(DB_PATH)`, `frame` the
candidate image, `oracle` maps a reference file name to the verdict of
`DeepFace.verify(temp_live.jpg, faces_db/<file>)`, and `tempBefore` is
whether `temp_live.jpg` existed on entry.  If the store directory is
missing or empty the function returns `None` at once (lines 65-66, before
`temp_live.jpg` is created); otherwise it writes the frame to
`temp_live.jpg` (line 69), scans the `.jpg` files (lines 71-92), and the
`finally` block removes `temp_live.jpg` when it exists (lines 97-99). -/
def recognize_face (dbExists : Bool) (listing : List String) (frame : Nat)
    (oracle : String → OracleResult) (tempBefore : Bool) : RecognizeResult :=
  if dbExists = false ∨ listing = [] then
    ⟨none, [], [], tempBefore⟩
  else
    let tempAfterWrite := true
    let files := listing.filter (fun f => py_endswith f ".jpg")
    let r := scan_files oracle files
    let tempFinal := if tempAfterWrite then false else tempAfterWrite
    ⟨r.recognized, r.calls, r.warnings, tempFinal⟩

/-- C3: on an empty reference store (empty directory listing), for any
candidate frame, `recognize_face` returns no match and makes zero oracle
calls. -/
theorem recognize_empty_store_no_oracle (dbExists : Bool) (frame : Nat)
    (oracle : String → OracleResult) (tempBefore : Bool) :
    (recognize_face dbExists [] frame oracle tempBefore).recognized = none ∧
    (recognize_face dbExists [] frame oracle tempBefore).calls = [] := by
  simp [recognize_face]

/-- On a non-empty listing with the store directory present, `recognize_face`
reduces to the scan over the `.jpg`-filtered listing, and `temp_live.jpg` is
gone on return. -/
theorem recognize_face_nonempty (listing : List String) (frame : Nat)
    (oracle : String → OracleResult) (tempBefore : Bool) (h : listing ≠ []) :
    recognize_face true listing frame oracle tempBefore =
      ⟨(scan_files oracle (listing.filter (fun f => py_endswith f ".jpg"))).recognized,
       (scan_files oracle (listing.filter (fun f => py_endswith f ".jpg"))).calls,
       (scan_files oracle (listing.filter (fun f => py_endswith f ".jpg"))).warnings,
       false⟩ := by
  have hc : ¬(true = false ∨ listing = []) := by simp [h]
  rw [recognize_face, if_neg hc]
  rfl

/-- If every file before `a` fails to verify (false verdict or raised call)
and `a` verifies true, the scan stops at `a`: it returns `a`'s stem, calls
the oracle exactly on the files up to and including `a`, and warns exactly
on the earlier files whose call raised. -/
theorem scan_files_first_match (oracle : String → OracleResult) (pre : List String)
    (a : String) (rest : List String) (ha : oracle a = .ok true)
    (hpre : ∀ f ∈ pre, oracle f ≠ .ok true) :
    scan_files oracle (pre ++ a :: rest) =
      ⟨some (splitextStem a), pre ++ [a], pre.filter (fun f => isErr (oracle f))⟩ := by
  induction pre with
  | nil => simp [scan_files, ha]
  | cons f pre ih =>
      have hf : oracle f ≠ .ok true := hpre f (by simp)
      have hpre2 : ∀ g ∈ pre, oracle g ≠ .ok true := fun g hg => hpre g (by simp [hg])
      cases hfo : oracle f with
      | ok b =>
          cases b with
          | true => exact absurd hfo hf
          | false => simp [scan_files, hfo, ih hpre2, isErr]
      | err m => simp [scan_files, hfo, ih hpre2, isErr]

/-- Every file the scan passes to the oracle comes from the scanned list. -/
theorem scan_files_calls_mem (oracle : String → OracleResult) :
    ∀ (l : List String) (f : String), f ∈ (scan_files oracle l).calls → f ∈ l := by
  intro l
  induction l with
  | nil => simp [scan_files]
  | cons g rest ih =>
      intro f hf
      cases hgo : oracle g with
      | ok b =>
          cases b with
          | true =>
              simp [scan_files, hgo] at hf
              simp [hf]
          | false =>
              simp [scan_files, hgo] at hf
              rcases hf with h | h
              · simp [h]
              · exact List.mem_cons_of_mem _ (ih f h)
      | err m =>
          simp [scan_files, hgo] at hf
          rcases hf with h | h
          · simp [h]
          · exact List.mem_cons_of_mem _ (ih f h)

/-- A recognised name is the stem of some scanned file that verified true. -/
theorem scan_files_recognized_mem (oracle : String → OracleResult) :
    ∀ (l : List String) (n : String), (scan_files oracle l).recognized = some n →
      ∃ f, f ∈ l ∧ oracle f = .ok true ∧ n = splitextStem f := by
  intro l
  induction l with
  | nil => simp [scan_files]
  | cons g rest ih =>
      intro n hn
      cases hgo : oracle g with
      | ok b =>
          cases b with
          | true =>
              simp [scan_files, hgo] at hn
              exact ⟨g, by simp, hgo, hn.symm⟩
          | false =>
              simp [scan_files, hgo] at hn
              obtain ⟨f, hfl, hfo, hfn⟩ := ih n hn
              exact ⟨f, by simp [hfl], hfo, hfn⟩
      | err m =>
          simp [scan_files, hgo] at hn
          obtain ⟨f, hfl, hfo, hfn⟩ := ih n hn
          exact ⟨f, by simp [hfl], hfo, hfn⟩

/-- C4: over a non-empty reference store, for any oracle verdict assignment,
`recognize_face` returns the stem of the first `.jpg` file (in enumeration
order) whose verdict is `verified = true`, and the oracle is called exactly
on the files up to and including that one — none after it. -/
theorem recognize_first_match (listing : List String) (frame : Nat)
    (oracle : String → OracleResult) (tempBefore : Bool)
    (pre : List String) (a : String) (post : List String)
    (hfilter : listing.filter (fun f => py_endswith f ".jpg") = pre ++ a :: post)
    (ha : oracle a = .ok true) (hpre : ∀ f ∈ pre, oracle f ≠ .ok true) :
    (recognize_face true listing frame oracle tempBefore).recognized =
      some (splitextStem a) ∧
    (recognize_face true listing frame oracle tempBefore).calls = pre ++ [a] := by
  have hne : listing ≠ [] := by
    intro h
    rw [h] at hfilter
    simp at hfilter
  rw [recognize_face_nonempty listing frame oracle tempBefore hne, hfilter,
    scan_files_first_match oracle pre a post ha hpre]
  exact ⟨rfl, rfl⟩

/-- A concrete oracle for witnesses: `bob.jpg` gets a false verdict,
`carl.jpg` a raised comparison, everything else verifies true. -/
def oracleDemo : String → OracleResult := fun f =>
  if f = "bob.jpg" then .ok false
  else if f = "carl.jpg" then .err "no face detected"
  else .ok true

/-- C4 witness: with references `bob.jpg`, `alice.jpg`, `zed.jpg` where
`bob.jpg` fails to verify and both `alice.jpg` and `zed.jpg` would verify
true, the first true match `alice` is returned and `zed.jpg` is never sent
to the oracle. -/
theorem recognize_first_match_witness :
    (recognize_face true ["bob.jpg", "alice.jpg", "zed.jpg"] 0 oracleDemo
        false).recognized = some "alice" ∧
    (recognize_face true ["bob.jpg", "alice.jpg", "zed.jpg"] 0 oracleDemo
        false).calls = ["bob.jpg", "alice.jpg"] := by
  have h := recognize_first_match ["bob.jpg", "alice.jpg", "zed.jpg"] 0 oracleDemo
    false ["bob.jpg"] "alice.jpg" ["zed.jpg"] (by decide) (by decide) (by decide)
  exact ⟨h.1.trans (by decide), h.2.trans (by decide)⟩

/-- C5: a raised oracle call is non-fatal.  If the call for reference `a`
raises while a later reference `b` verifies true (and nothing before `b`
other than failures verifies true), `recognize_face` warns about `a`, skips
it, and returns `b`'s stem. -/
theorem recognize_skips_failed_reference (listing : List String) (frame : Nat)
    (oracle : String → OracleResult) (tempBefore : Bool)
    (pre : List String) (a : String) (mid : List String) (b : String)
    (post : List String) (msg : String)
    (hfilter : listing.filter (fun f => py_endswith f ".jpg") =
      pre ++ a :: (mid ++ b :: post))
    (ha : oracle a = .err msg) (hb : oracle b = .ok true)
    (hpre : ∀ f ∈ pre ++ mid, oracle f ≠ .ok true) :
    (recognize_face true listing frame oracle tempBefore).recognized =
      some (splitextStem b) ∧
    a ∈ (recognize_face true listing frame oracle tempBefore).warnings := by
  have hne : listing ≠ [] := by
    intro h
    rw [h] at hfilter
    simp at hfilter
  have hassoc : pre ++ a :: (mid ++ b :: post) = (pre ++ a :: mid) ++ b :: post := by
    simp
  have hpre2 : ∀ f ∈ pre ++ a :: mid, oracle f ≠ .ok true := by
    intro f hf
    rcases List.mem_append.mp hf with h1 | h1
    · exact hpre f (List.mem_append.mpr (Or.inl h1))
    · rcases List.mem_cons.mp h1 with h2 | h2
      · intro hcontra
        rw [h2, ha] at hcontra
        exact OracleResult.noConfusion hcontra
      · exact hpre f (List.mem_append.mpr (Or.inr h2))
  rw [recognize_face_nonempty listing frame oracle tempBefore hne, hfilter, hassoc,
    scan_files_first_match oracle (pre ++ a :: mid) b post hb hpre2]
  refine ⟨rfl, ?_⟩
  apply List.mem_filter.mpr
  exact ⟨by simp, by simp [ha, isErr]⟩

/-- C5 witness: with references `bob.jpg` (false verdict), `carl.jpg`
(raised call) and `dana.jpg` (true verdict), recognition warns about
`carl.jpg`, skips it, and returns `dana`. -/
theorem recognize_skips_failed_reference_witness :
    (recognize_face true ["bob.jpg", "carl.jpg", "dana.jpg"] 0 oracleDemo
        false).recognized = some "dana" ∧
    "carl.jpg" ∈ (recognize_face true ["bob.jpg", "carl.jpg", "dana.jpg"] 0
        oracleDemo false).warnings := by
  have h := recognize_skips_failed_reference ["bob.jpg", "carl.jpg", "dana.jpg"] 0
    oracleDemo false ["bob.jpg"] "carl.jpg" [] "dana.jpg" [] "no face detected"
    (by decide) (by decide) (by decide) (by decide)
  exact ⟨h.1.trans (by decide), h.2⟩

/-- C6: over a non-empty reference store, on every exit path of
`recognize_face` — first match, exhaustion without a match, or oracle
failures — the transient `temp_live.jpg` artifact no longer exists when the
function returns (the `finally` block removes it). -/
theorem recognize_temp_removed (listing : List String) (frame : Nat)
    (oracle : String → OracleResult) (tempBefore : Bool) (h : listing ≠ []) :
    (recognize_face true listing frame oracle tempBefore).tempExists = false := by
  rw [recognize_face_nonempty listing frame oracle tempBefore h]

/-- C6 witness: with one reference on disk and the temp file initially
present, the temp file is gone after recognition returns. -/
theorem recognize_temp_removed_witness :
    (recognize_face true ["alice.jpg"] 0 oracleDemo true).tempExists = false :=
  recognize_temp_removed ["alice.jpg"] 0 oracleDemo true (by decide)

/-- C10: `recognize_face` sends to the oracle only listing entries ending in
`.jpg`; any name it returns is the `splitext` stem of such an entry; and a
non-empty directory containing no `.jpg` file yields no match with zero
oracle calls. -/
theorem recognize_jpg_only (dbExists : Bool) (listing : List String) (frame : Nat)
    (oracle : String → OracleResult) (tempBefore : Bool) :
    (∀ f ∈ (recognize_face dbExists listing frame oracle tempBefore).calls,
        f ∈ listing ∧ py_endswith f ".jpg" = true) ∧
    (∀ n, (recognize_face dbExists listing frame oracle tempBefore).recognized =
        some n →
      ∃ f, f ∈ listing ∧ py_endswith f ".jpg" = true ∧ n = splitextStem f) ∧
    ((∀ f ∈ listing, py_endswith f ".jpg" = false) →
      (recognize_face dbExists listing frame oracle tempBefore).recognized = none ∧
      (recognize_face dbExists listing frame oracle tempBefore).calls = []) := by
  by_cases hc : dbExists = false ∨ listing = []
  · rw [recognize_face, if_pos hc]
    refine ⟨by simp, by simp, fun _ => ⟨rfl, rfl⟩⟩
  · push_neg at hc
    have hdb : dbExists = true := by
      cases dbExists
      · exact absurd rfl hc.1
      · rfl
    subst hdb
    rw [recognize_face_nonempty listing frame oracle tempBefore hc.2]
    refine ⟨?_, ?_, ?_⟩
    · intro f hf
      have := scan_files_calls_mem oracle _ f hf
      exact (List.mem_filter.mp this).imp id id
    · intro n hn
      obtain ⟨f, hfl, _, hfn⟩ := scan_files_recognized_mem oracle _ n hn
      obtain ⟨hmem, hjpg⟩ := List.mem_filter.mp hfl
      exact ⟨f, hmem, hjpg, hfn⟩
    · intro hall
      have hfil : listing.filter (fun f => py_endswith f ".jpg") = [] := by
        apply List.filter_eq_nil_iff.mpr
        intro f hf
        simp [hall f hf]
      rw [hfil]
      exact ⟨rfl, rfl⟩

/-- C10 witness: a non-empty store directory holding only non-`.jpg` files
(`readme.txt`, `photo.png`) yields no match and zero oracle calls. -/
theorem recognize_jpg_only_witness :
    (recognize_face true ["readme.txt", "photo.png"] 0 oracleDemo
        false).recognized = none ∧
    (recognize_face true ["readme.txt", "photo.png"] 0 oracleDemo
        false).calls = [] :=
  (recognize_jpg_only true ["readme.txt", "photo.png"] 0 oracleDemo false).2.2
    (by decide)

/-- Python `name.strip()` (facescan.py lines 117, 140): trims leading and
trailing whitespace (modelled for the ASCII whitespace characters). -/
def py_strip (s : String) : String :=
  ⟨((s.data.dropWhile Char.isWhitespace).reverse.dropWhile Char.isWhitespace).reverse⟩

/-- Outcome of one registration attempt in `add_face`. -/
inductive AddFaceOutcome
  | rejectedEmptyName
  | cameraOpenFailed
  | captureFailed
  | registered (key : String)
deriving DecidableEq

/-- The reference store as a map from file name (e.g. `alice.jpg`) to the
stored image, modelling the `faces_db` directory. -/
def RefStore : Type := String → Option Nat

/-- The capture path of `add_face` (facescan.py lines 116-141) for one
button press: an empty-after-strip name is rejected before any camera
access (line 117); otherwise the webcam is opened (line 125) and read
(line 131), and on success the frame is written to
`faces_db/<stripped name>.jpg` (lines 140-141), silently overwriting any
existing file of that name.  Returns the outcome, the updated store, and
whether the camera was accessed. -/
def add_face (name : String) (camOpened : Bool) (readOk : Bool) (frame : Nat)
    (store : RefStore) : AddFaceOutcome × RefStore × Bool :=
  if py_strip name = "" then
    (.rejectedEmptyName, store, false)
  else if camOpened = false then
    (.cameraOpenFailed, store, true)
  else if readOk = false then
    (.captureFailed, store, true)
  else
    (.registered (py_strip name),
     fun k => if k = py_strip name ++ ".jpg" then some frame else store k,
     true)

/-- C7: a whitespace-only name is rejected with no camera access and an
unchanged store; a name that is non-empty after trimming has its captured
frame stored under the trimmed name's `.jpg` key, silently overwriting any
prior image for that name and touching no other key. -/
theorem add_face_name_validation (name : String) (frame : Nat) (store : RefStore)
    (camOpened readOk : Bool) :
    (py_strip name = "" →
      add_face name camOpened readOk frame store =
        (.rejectedEmptyName, store, false)) ∧
    (py_strip name ≠ "" → camOpened = true → readOk = true →
      (add_face name camOpened readOk frame store).1 =
        .registered (py_strip name) ∧
      (add_face name camOpened readOk frame store).2.1
        (py_strip name ++ ".jpg") = some frame ∧
      (∀ k, k ≠ py_strip name ++ ".jpg" →
        (add_face name camOpened readOk frame store).2.1 k = store k)) := by
  constructor
  · intro h
    rw [add_face, if_pos h]
  · intro h hc hr
    subst hc
    subst hr
    rw [add_face, if_neg h]
    refine ⟨by simp, by simp, ?_⟩
    intro k hk
    simp [hk]

/-- C7 witness: the whitespace-only name `"   "` is rejected without camera
access and a prior `Bob.jpg` entry survives untouched; registering
`" Bob "` with a new frame overwrites `Bob.jpg` with the new image. -/
theorem add_face_name_validation_witness :
    (add_face "   " true true 7 (fun k => if k = "Bob.jpg" then some 1 else none)) =
      (.rejectedEmptyName, fun k => if k = "Bob.jpg" then some 1 else none, false) ∧
    (add_face " Bob " true true 7
        (fun k => if k = "Bob.jpg" then some 1 else none)).2.1 "Bob.jpg" =
      some 7 := by
  constructor
  · exact (add_face_name_validation "   " 7
      (fun k => if k = "Bob.jpg" then some 1 else none) true true).1 (by decide)
  · have h := (add_face_name_validation " Bob " 7
      (fun k => if k = "Bob.jpg" then some 1 else none) true true).2
      (by decide) rfl rfl
    have e : py_strip " Bob " ++ ".jpg" = "Bob.jpg" := by decide
    rw [e] at h
    exact h.2.1

/-- One per-check-type verification session, the dict stored in
`st.session_state[session_key]` (facescan.py lines 163-168): the captured
frame, the `verification_done` flag, and the `last_capture_time`. -/
structure Session where
  frame : Option Nat
  verificationDone : Bool
  lastCaptureTime : Option Nat
deriving DecidableEq

/-- Result of one camera acquisition attempt (facescan.py lines 173-179):
opening the device can fail, reading a frame can fail, or a frame is read
at some time. -/
inductive CamResult
  | openFail
  | readFail
  | ok (frame : Nat) (time : Nat)
deriving DecidableEq

/-- The capture button handler of `webcam_verification` (facescan.py lines
171-188): on open or read failure an error is shown and the session is
unchanged; on success the frame is stored, `verification_done` is cleared,
and `last_capture_time` is set. -/
def capture_action (s : Session) (cam : CamResult) : Session :=
  match cam with
  | .openFail => s
  | .readFail => s
  | .ok f t => ⟨some f, false, some t⟩

/-- The recapture button handler of `webcam_verification` (facescan.py
lines 249-253): sets the stored frame to `None` and `verification_done` to
`False`, then reruns.  Note that `last_capture_time` is not touched. -/
def recapture_action (s : Session) : Session :=
  { s with frame := none, verificationDone := false }

/-- The verify button handler of `webcam_verification` (facescan.py lines
207-246), parameterised by the Verifier's result for the stored frame
(`recog`) and the ledger-write outcome.  Returns the new session, the new
ledger file, and whether an error was surfaced.  The button exists only
when a frame is stored; a recognised name triggers `log_check`, and only a
`True` return marks `verification_done` (lines 227-228); a raised
exception is caught at line 245 and surfaced. -/
def verify_action (s : Session) (recog : Option String) (ctype now : String)
    (fs : LedgerFile) (writeOk : Bool) (junk : LedgerFile) :
    Session × LedgerFile × Bool :=
  match s.frame with
  | none => (s, fs, false)
  | some _ =>
      match recog with
      | none => (s, fs, true)
      | some nm =>
          match log_check nm ctype now fs writeOk junk with
          | .error _ => (s, fs, true)
          | .ok (true, fs2, _) => ({ s with verificationDone := true }, fs2, false)
          | .ok (false, fs2, _) => (s, fs2, true)

/-- C8 counterexample: from a session holding a frame captured at time 42,
the recapture action discards the frame but leaves the capture timestamp in
place (`last_capture_time` still holds 42), contradicting the claim that
recapture discards both the frame and the timestamp. -/
theorem recapture_keeps_timestamp :
    (recapture_action ⟨some 7, false, some 42⟩).frame = none ∧
    (recapture_action ⟨some 7, false, some 42⟩).lastCaptureTime ≠ none := by
  exact ⟨rfl, by simp [recapture_action]⟩

/-- C8 amended: recapture discards the current frame and clears the
verification-done flag, but leaves the capture timestamp unchanged (it is
only overwritten by the next successful capture); reaching a captured-frame
state again requires a new successful camera acquisition — a failed open or
read leaves the session without a frame, while a successful read installs
the new frame and its capture time. -/
theorem recapture_discards_frame (s : Session) (f t : Nat) :
    (recapture_action s).frame = none ∧
    (recapture_action s).verificationDone = false ∧
    (recapture_action s).lastCaptureTime = s.lastCaptureTime ∧
    (capture_action (recapture_action s) .openFail).frame = none ∧
    (capture_action (recapture_action s) .readFail).frame = none ∧
    capture_action (recapture_action s) (.ok f t) = ⟨some f, false, some t⟩ := by
  exact ⟨rfl, rfl, rfl, rfl, rfl, rfl⟩

/-- C9: when the Verifier returns a name but the ledger write fails,
`log_check` returns `False`, so `verification_done` stays `False`, the
frame is retained (the session remains in its captured-frame state), and
the failure is surfaced to the operator. -/
theorem verify_ledger_failure_keeps_session (s : Session) (f : Nat) (nm ctype now : String)
    (l : List Record) (junk : LedgerFile)
    (hframe : s.frame = some f) (hdone : s.verificationDone = false) :
    (verify_action s (some nm) ctype now (.records l) false junk).1.frame = some f ∧
    (verify_action s (some nm) ctype now (.records l) false junk).1.verificationDone =
      false ∧
    (verify_action s (some nm) ctype now (.records l) false junk).2.2 = true := by
  rw [verify_action, hframe]
  simp [log_check, load_attendance_data, save_attendance_data, hframe, hdone]

/-- C9 witness: a concrete session holding frame 7, a recognised name
`Bob`, and a failing ledger write: the frame is kept, verification is not
marked done, and the error is surfaced. -/
theorem verify_ledger_failure_keeps_session_witness :
    (verify_action ⟨some 7, false, some 42⟩ (some "Bob") "Check-In"
        "2024-01-01 09:00:00" (.records []) false .invalidJson).1.frame = some 7 ∧
    (verify_action ⟨some 7, false, some 42⟩ (some "Bob") "Check-In"
        "2024-01-01 09:00:00" (.records []) false .invalidJson).1.verificationDone =
      false ∧
    (verify_action ⟨some 7, false, some 42⟩ (some "Bob") "Check-In"
        "2024-01-01 09:00:00" (.records []) false .invalidJson).2.2 = true :=
  verify_ledger_failure_keeps_session ⟨some 7, false, some 42⟩ 7 "Bob" "Check-In"
    "2024-01-01 09:00:00" [] .invalidJson rfl rfl
